import Mathlib

/-!
Verification development for the tracing layer of the repository
(`awslabs/aws_api_mcp_server/core/common/tracing.py`, with the sibling
serializer in `core/common/otel.py`).

The Python code is shallowly embedded: pure computations become Lean
functions; mutable state (the span buffer of the OTLP backend) is passed
explicitly; the environment (`os.getenv`, the tracer clock and id
generator, the availability of optional libraries) is passed as explicit
parameters; Python exceptions become an explicit exception type threaded
through `Except`.  Attribute values are modelled as strings: every value
the code stores goes through `str(value)` first, and `str` on a string is
the identity, so the stringification is applied by the caller of the
embedding.  Python integers are `Nat` (timestamps and ids are
non-negative).
-/

/-- Terminal status of a span, as set by the backends
(`opentelemetry.trace.StatusCode`): unset on creation, OK, or ERROR with
a message. -/
inductive SpanStatus where
  | unset
  | ok
  | error (msg : String)
deriving DecidableEq, Repr

/-- The data of one SDK span that the code in `tracing.py` reads or
writes: trace/span ids, name, start and (optional) end timestamp in
nanoseconds, string attributes in insertion order, and a status. -/
structure Span where
  traceId : Nat
  spanId : Nat
  name : String
  startTime : Nat
  endTime : Option Nat
  attributes : List (String × String)
  status : SpanStatus
deriving DecidableEq, Repr

/-- A Python exception value as seen by the tracing layer: either the
own exception of the traced operation (`user`, tagged with an identity and a
message so that "the same exception" is expressible), or the
`RuntimeError` that `contextlib` raises when a generator-based context
manager yields again instead of stopping after `throw()`. -/
inductive PyExc where
  | user (idx : Nat) (msg : String)
  | generatorDidntStop
deriving DecidableEq, Repr

/-- Embeds `str(e)` on an exception: the message for a user exception; the fixed
`RuntimeError` text otherwise (the code only ever stringifies user
exceptions). -/
def PyExc.pyStr : PyExc → String
  | .user _ msg => msg
  | .generatorDidntStop => "generator did not stop after throw()"

/-- Minimal JSON-like values, enough for the dictionaries the code
builds in `get_resource_spans`. -/
inductive Json where
  | str (s : String)
  | arr (elems : List Json)
  | obj (fields : List (String × Json))

/-- Dictionary lookup on a JSON object. -/
def Json.field : Json → String → Option Json
  | .obj fs, k => fs.lookup k
  | .str _, _ => none
  | .arr _, _ => none

/-- The keys of a JSON object, in order. -/
def Json.keys : Json → List String
  | .obj fs => fs.map Prod.fst
  | .str _ => []
  | .arr _ => []

/-- Embeds the Python expression `format(n, fmt)` where `fmt` requests
lowercase hexadecimal, zero-padded on the left to at least `w`
characters. -/
def hexPad (w n : Nat) : String :=
  let ds := (Nat.digits 16 n).reverse.map Nat.digitChar
  ⟨List.replicate (w - ds.length) '0' ++ ds⟩

/-- Embeds `str(span.end_time or time.time_ns())`: the recorded end time unless
it is falsy (None or 0), in which case the current clock `now`. -/
def endNano (span : Span) (now : Nat) : Nat :=
  match span.endTime with
  | some t => if t = 0 then now else t
  | none => now

namespace OTLPBackend

/-- One element of the `spans_json` list built by
`OTLPBackend.get_resource_spans` (tracing.py lines 97-113).  The status
code is the literal `STATUS_CODE_OK` the code writes there,
independently of the span status. -/
def spanRecord (span : Span) (now : Nat) : Json :=
  .obj [
    ("traceId", .str (hexPad 32 span.traceId)),
    ("spanId", .str (hexPad 16 span.spanId)),
    ("name", .str span.name),
    ("kind", .str "SPAN_KIND_INTERNAL"),
    ("startTimeUnixNano", .str (Nat.repr span.startTime)),
    ("endTimeUnixNano", .str (Nat.repr (endNano span now))),
    ("attributes", .arr (span.attributes.map fun kv =>
      .obj [("key", .str kv.1), ("value", .obj [("stringValue", .str kv.2)])])),
    ("status", .obj [("code", .str "STATUS_CODE_OK")])]

/-- The fixed `resource` block of the export structure. -/
def resourceJson : Json :=
  .obj [("attributes", .arr [
    .obj [("key", .str "service.name"),
          ("value", .obj [("stringValue", .str "aws-api-mcp-server")])],
    .obj [("key", .str "service.version"),
          ("value", .obj [("stringValue", .str "0.2.14")])]])]

/-- The fixed `scope` block of the export structure. -/
def scopeJson : Json :=
  .obj [("name", .str "aws-api-mcp-server"), ("version", .str "0.2.14")]

/-- Embeds `OTLPBackend.get_resource_spans` (tracing.py lines 95-128): builds
the export structure from the current buffer, then clears the buffer
(`self.spans.clear()`); returns the structure and the new buffer
state. -/
def get_resource_spans (buffer : List Span) (now : Nat) : Json × List Span :=
  let spansJson := buffer.map (fun s => spanRecord s now)
  (.obj [
    ("resource", resourceJson),
    ("scopeSpans", .arr [.obj [("scope", scopeJson), ("spans", .arr spansJson)]])],
   [])

/-- Embeds `OTLPBackend.create_span` (tracing.py lines 73-93) run as a full
`with` scope around a caller body.  With no tracer the generator just
yields `None` and the body outcome passes through.  With a tracer, a
span is started (fresh ids and start time come from the tracer, modelled
as parameters), attributes are attached stringified; if the body raises,
the status is set to ERROR with the stringified exception and the same
exception is re-raised; in both cases the `finally` block ends the span
and appends it to the buffer exactly once. -/
def create_span_scope {A : Type} (tracerSome : Bool) (ids : Nat × Nat)
    (t0 tEnd : Nat) (name : String) (attrs : List (String × String))
    (buffer : List Span) (body : Option Span → Except PyExc A) :
    List Span × Except PyExc A :=
  if tracerSome then
    let span0 : Span :=
      { traceId := ids.1, spanId := ids.2, name := name, startTime := t0,
        endTime := none, attributes := attrs, status := .unset }
    match body (some span0) with
    | .ok a =>
        (buffer ++ [{ span0 with endTime := some tEnd }], .ok a)
    | .error e =>
        (buffer ++ [{ span0 with status := .error e.pyStr, endTime := some tEnd }],
         .error e)
  else
    (buffer, body none)

end OTLPBackend

namespace NoOpBackend

/-- Embeds `NoOpBackend.create_span` (tracing.py lines 38-40) run as a full
`with` scope: the generator yields `None` once and has no handlers, so
the handle is `None` and the body outcome (normal or raising) passes
through unchanged. -/
def create_span_scope {A : Type} (body : Option Span → Except PyExc A) :
    Except PyExc A :=
  body none

/-- Embeds `NoOpBackend.get_resource_spans` (tracing.py lines 42-43). -/
def get_resource_spans : Json :=
  .obj [("resource", .obj []), ("scopeSpans", .arr [])]

end NoOpBackend

namespace TraceManager

/-- Embeds `TraceManager.trace` (tracing.py lines 187-194) over the OTLP
backend, run as a full `with` scope around a caller body.  The
single `try` of the generator wraps both the inner `with` and its own
`yield`, so an exception raised by the body is thrown back in at the
yield, propagates through the inner scope (which finalizes and appends
the span and re-raises), is caught by `except Exception`, and the
generator then yields `None` a second time — at which point
`contextlib._GeneratorContextManager.__exit__` raises
`RuntimeError("generator did not stop after throw()")` to the caller in
place of the original fault. -/
def trace_scope_otlp {A : Type} (tracerSome : Bool) (ids : Nat × Nat)
    (t0 tEnd : Nat) (operation : String) (attrs : List (String × String))
    (buffer : List Span) (body : Option Span → Except PyExc A) :
    List Span × Except PyExc A :=
  match OTLPBackend.create_span_scope tracerSome ids t0 tEnd operation attrs buffer body with
  | (buffer2, .ok a) => (buffer2, .ok a)
  | (buffer2, .error _) => (buffer2, .error .generatorDidntStop)

end TraceManager

/-- Annotations and metadata recorded on one X-Ray segment or
subsegment, in insertion order. -/
structure XRaySegmentData where
  annotations : List (String × String)
  metadata : List (String × String)
deriving DecidableEq, Repr

/-- Embeds the key normalization of tracing.py lines 151/166: dots are
replaced by underscores, then dashes by underscores.  Each `replace` has
a single-character pattern and replacement, so it is exactly a character
map over the string, applied twice in sequence. -/
def cleanKey (k : String) : String :=
  ⟨(k.data.map fun c => if c = '.' then '_' else c).map
    fun c => if c = '-' then '_' else c⟩

/-- The attribute-routing step of `XRayBackend.create_span` (tracing.py
lines 150-155 and 165-170, identical to otel.py lines 121-127): the key
is normalized with `cleanKey`; the stringified value goes to
`put_annotation` when its length is at most 50, else to
`put_metadata`. -/
def putAttr (d : XRaySegmentData) (k v : String) : XRaySegmentData :=
  let ck := cleanKey k
  if v.length ≤ 50 then
    { d with annotations := d.annotations ++ [(ck, v)] }
  else
    { d with metadata := d.metadata ++ [(ck, v)] }

/-- The handle yielded by `XRayBackend.create_span` when it records
something: a root segment or a subsegment, with the data recorded on
it. -/
inductive XRayHandle where
  | root (d : XRaySegmentData)
  | sub (d : XRaySegmentData)
deriving DecidableEq, Repr

/-- The hardcoded name that opens a root segment (tracing.py line 146). -/
def rootOperationName : String := "aws_cli_command"

namespace XRayBackend

/-- The entry behaviour of `XRayBackend.create_span` (tracing.py lines
141-177): what handle is yielded and what is recorded on it, as a
function of whether the recorder library was importable
(`recorderSome`), whether `self.recorder.current_segment()` returns a
live segment (`rootOpen`), the span name and the attributes.  With no
recorder, or for a non-root name with no open root segment, the
generator yields `None` and records nothing.  For the root operation
name, `in_segment` opens a fresh segment that first gets the annotation
with key "service" and value "aws-api-mcp-server" and then the routed attributes; for
any other name with an open root, `in_subsegment` opens a subsegment
that gets only the routed attributes.  (The surrounding
`try/except Exception` clauses swallow recorder failures and degrade to
`None`; the recorder itself is modelled as succeeding.) -/
def create_span_enter (recorderSome : Bool) (rootOpen : Bool)
    (name : String) (attrs : List (String × String)) : Option XRayHandle :=
  if recorderSome then
    if name = rootOperationName then
      some (.root (attrs.foldl (fun d kv => putAttr d kv.1 kv.2)
        { annotations := [("service", "aws-api-mcp-server")], metadata := [] }))
    else if rootOpen then
      some (.sub (attrs.foldl (fun d kv => putAttr d kv.1 kv.2)
        { annotations := [], metadata := [] }))
    else
      none
  else
    none

/-- Embeds `XRayBackend.get_resource_spans` (tracing.py lines 179-180). -/
def get_resource_spans : Json :=
  .obj [("resource", .obj []), ("scopeSpans", .arr [])]

end XRayBackend

/-- ASCII case folding of one character, as `str.lower` acts on the
ASCII range (the configuration values compared against are ASCII). -/
def pyLowerChar (c : Char) : Char :=
  if 65 ≤ c.toNat ∧ c.toNat ≤ 90 then Char.ofNat (c.toNat + 32) else c

/-- Embeds `s.lower()` on an ASCII string: character-wise case folding. -/
def pyLower (s : String) : String :=
  ⟨s.data.map pyLowerChar⟩

/-- The three backend variants the factory can construct. -/
inductive BackendKind where
  | noop
  | otlp
  | xray
deriving DecidableEq, Repr

/-- Embeds `get_trace_backend` (tracing.py lines 234-241): the value of
the environment variable AWS_MCP_TRACING_BACKEND (default
`disabled`) is lowercased and then selects the backend; `otlp` and
`xray` are recognized, everything else falls to the no-op backend. -/
def get_trace_backend (envValue : Option String) : BackendKind :=
  let backendType := pyLower (envValue.getD "disabled")
  if backendType = "otlp" then .otlp
  else if backendType = "xray" then .xray
  else .noop

/-- The environment facts `OTLPBackend.__init__` depends on: whether the
opentelemetry imports succeed, whether constructing `OTLPSpanExporter`
raises, and the value of `OTEL_EXPORTER_OTLP_ENDPOINT`. -/
structure OTLPInitEnv where
  otelAvailable : Bool
  otlpExporterFails : Bool
  endpointEnv : Option String
deriving DecidableEq, Repr

/-- A span processor attached to the tracer provider during
construction: the console exporter or the network OTLP exporter with
its endpoint. -/
inductive Exporter where
  | console
  | otlpNetwork (endpoint : String)
deriving DecidableEq, Repr

/-- The state `OTLPBackend.__init__` leaves behind: the (empty) span
buffer, the processors attached to the provider, and whether
`self.tracer` is set. -/
structure OTLPState where
  spans : List Span
  processors : List Exporter
  tracerSome : Bool
deriving DecidableEq, Repr

namespace OTLPBackend

/-- Embeds `OTLPBackend.__init__` (tracing.py lines 48-71), with the outcome of each fallible
step drawn from the environment.  The whole import block sits
in `try/except ImportError`, and the network-exporter construction in an
inner `try/except Exception: pass`, so every path returns normally
(`Except.ok`): with the library available the console exporter is
attached unconditionally, then the network exporter toward
`OTEL_EXPORTER_OTLP_ENDPOINT` (default `http://localhost:4317`) only if
its construction does not raise; with the library missing, nothing is
attached and the tracer is `None`. -/
def init (env : OTLPInitEnv) : Except String OTLPState :=
  if env.otelAvailable then
    let endpoint := env.endpointEnv.getD "http://localhost:4317"
    .ok { spans := [],
          processors :=
            Exporter.console ::
              (if env.otlpExporterFails then [] else [Exporter.otlpNetwork endpoint]),
          tracerSome := true }
  else
    .ok { spans := [], processors := [], tracerSome := false }

end OTLPBackend

/-- The status block of `OTelTraceManager.span_to_otlp_json` (otel.py
lines 201-205): `STATUS_CODE_OK` exactly when the status code compares
equal to `StatusCode.OK`, else `STATUS_CODE_ERROR`. -/
def OTelTraceManager.statusJson (st : SpanStatus) : Json :=
  .obj [("code", .str (if st = .ok then "STATUS_CODE_OK" else "STATUS_CODE_ERROR"))]

/-! ### Helper lemmas -/

theorem pyLowerChar_idem (c : Char) : pyLowerChar (pyLowerChar c) = pyLowerChar c := by
  unfold pyLowerChar
  by_cases h : 65 ≤ c.toNat ∧ c.toNat ≤ 90
  · rw [if_pos h]
    obtain ⟨h1, h2⟩ := h
    revert h1 h2
    generalize c.toNat = n
    intro h1 h2
    interval_cases n <;> decide
  · rw [if_neg h, if_neg h]

theorem pyLower_idem (s : String) : pyLower (pyLower s) = pyLower s := by
  show String.mk ((s.data.map pyLowerChar).map pyLowerChar) = String.mk (s.data.map pyLowerChar)
  rw [List.map_map]
  exact congrArg String.mk (List.map_congr_left fun a _ => pyLowerChar_idem a)

theorem digits_len_le_of_lt_pow {b n w : Nat} (hb : 1 < b) (h : n < b ^ w) :
    (Nat.digits b n).length ≤ w := by
  by_contra hlt
  push_neg at hlt
  rcases Nat.eq_zero_or_pos n with h0 | hpos
  · subst h0
    simp [Nat.digits_zero] at hlt
  · have hbig := Nat.base_pow_length_digits_le b n hb (Nat.pos_iff_ne_zero.mp hpos)
    have hmono : b ^ (w + 1) ≤ b ^ (Nat.digits b n).length :=
      Nat.pow_le_pow_right (Nat.le_of_lt hb) hlt
    have hb0 : 0 < b := Nat.lt_of_lt_of_le Nat.zero_lt_one (Nat.le_of_lt hb)
    have : b * b ^ w ≤ b * n := by
      calc b * b ^ w = b ^ (w + 1) := (pow_succ' b w).symm
        _ ≤ b ^ (Nat.digits b n).length := hmono
        _ ≤ b * n := hbig
    exact absurd (Nat.le_of_mul_le_mul_left this hb0) (Nat.not_le_of_lt h)

theorem hexPad_length {w n : Nat} (h : n < 16 ^ w) : (hexPad w n).length = w := by
  have hlen : (Nat.digits 16 n).length ≤ w := digits_len_le_of_lt_pow (by norm_num) h
  show (List.replicate (w - ((Nat.digits 16 n).reverse.map Nat.digitChar).length) '0' ++
    (Nat.digits 16 n).reverse.map Nat.digitChar).length = w
  rw [List.length_append, List.length_replicate, List.length_map, List.length_reverse]
  omega

/-- The characters a lowercase hexadecimal format can produce. -/
def isHexDigitChar (c : Char) : Bool :=
  c.isDigit || ('a' ≤ c && c ≤ 'f')

theorem digitChar_isHex {d : Nat} (h : d < 16) : isHexDigitChar (Nat.digitChar d) = true := by
  interval_cases d <;> decide

theorem hexPad_chars (w n : Nat) : ∀ c ∈ (hexPad w n).data, isHexDigitChar c = true := by
  intro c hc
  have hc2 : c ∈ List.replicate (w - ((Nat.digits 16 n).reverse.map Nat.digitChar).length) '0' ++
      (Nat.digits 16 n).reverse.map Nat.digitChar := hc
  rcases List.mem_append.mp hc2 with h | h
  · have := List.eq_of_mem_replicate h
    subst this
    decide
  · rcases List.mem_map.mp h with ⟨d, hd, hdc⟩
    have hd16 : d < 16 := Nat.digits_lt_base (by norm_num) (List.mem_reverse.mp hd)
    subst hdc
    exact digitChar_isHex hd16

/-! ### Claim theorems -/

/-- A concrete span finalized with ERROR status, as the fault path of
`OTLPBackend.create_span` produces it. -/
def errorSpanExample : Span :=
  { traceId := 1, spanId := 2, name := "op", startTime := 3, endTime := some 7,
    attributes := [], status := .error "boom" }

/-- Claim C1: the claim says the serialized `status.code` is
`"STATUS_CODE_ERROR"` for a span whose status is ERROR.  The code of
`OTLPBackend.get_resource_spans` writes the literal `STATUS_CODE_OK`
for every span, so a span finalized with ERROR status is exported with
`status.code = "STATUS_CODE_OK"`.  The sibling serializer
`OTelTraceManager.span_to_otlp_json` in otel.py does derive the code
from the status, which is what the claim describes. -/
theorem C1_status_hardcoded_ok :
    errorSpanExample.status = SpanStatus.error "boom" ∧
    (OTLPBackend.spanRecord errorSpanExample 0).field "status"
      = some (.obj [("code", .str "STATUS_CODE_OK")]) ∧
    OTelTraceManager.statusJson errorSpanExample.status
      = .obj [("code", .str "STATUS_CODE_ERROR")] ∧
    "STATUS_CODE_OK" ≠ "STATUS_CODE_ERROR" :=
  ⟨rfl, rfl, rfl, by decide⟩

/-- Claim C2: the claim says the fault raised by the body propagates
unchanged out of a `trace()` scope.  Running `TraceManager.trace` over
the OTLP backend with a body that raises `user 0 "boom"` does append
exactly one span (finalized with ERROR status), but the caller receives
the contextlib `RuntimeError` (the generator yields `None` again inside
`except Exception` after the fault was thrown back in), not the original
fault. -/
theorem C2_trace_scope_replaces_fault :
    TraceManager.trace_scope_otlp true (1, 2) 10 20 "op" [] []
        (fun _ => (Except.error (PyExc.user 0 "boom") : Except PyExc Unit))
      = ([{ traceId := 1, spanId := 2, name := "op", startTime := 10,
            endTime := some 20, attributes := [], status := .error "boom" }],
         Except.error PyExc.generatorDidntStop) ∧
    PyExc.generatorDidntStop ≠ PyExc.user 0 "boom" :=
  ⟨rfl, by decide⟩

/-- Claim C3: `OTLPBackend.get_resource_spans` clears the buffer as a
side effect: for every buffer state the post-call buffer is empty, and a
second call issued on that emptied buffer returns a structure whose
`scopeSpans[0].spans` list is empty, so no span is exported twice. -/
theorem C3_get_resource_spans_drains (buffer : List Span) (now now2 : Nat) :
    (OTLPBackend.get_resource_spans buffer now).2 = [] ∧
    (OTLPBackend.get_resource_spans
        (OTLPBackend.get_resource_spans buffer now).2 now2).1.field "scopeSpans"
      = some (.arr [.obj [("scope", OTLPBackend.scopeJson), ("spans", .arr [])]]) :=
  ⟨rfl, rfl⟩

/-- Claim C4: for the X-Ray backend with an available recorder, a
`create_span` whose name is the root operation name always opens a new
root segment; any other name opens a subsegment exactly when a root
segment is currently open, and otherwise yields the inert `None` handle
and records nothing (the code path raises nothing). -/
theorem C4_xray_nesting (rootOpen : Bool) (name : String)
    (attrs : List (String × String)) (h : name ≠ rootOperationName) :
    (∃ d, XRayBackend.create_span_enter true rootOpen rootOperationName attrs
        = some (XRayHandle.root d)) ∧
    ((∃ d, XRayBackend.create_span_enter true rootOpen name attrs
        = some (XRayHandle.sub d)) ↔ rootOpen = true) ∧
    (rootOpen = false → XRayBackend.create_span_enter true rootOpen name attrs = none) := by
  refine ⟨?_, ?_, ?_⟩
  · refine ⟨attrs.foldl (fun d kv => putAttr d kv.1 kv.2)
      { annotations := [("service", "aws-api-mcp-server")], metadata := [] }, ?_⟩
    simp [XRayBackend.create_span_enter]
  · cases rootOpen <;> simp [XRayBackend.create_span_enter, h]
  · intro hro
    subst hro
    simp [XRayBackend.create_span_enter, h]

/-- Witness for C4 at a concrete non-root name with no open root
segment: the call is inert. -/
theorem C4_xray_nesting_witness :
    ("describe_instances" ≠ rootOperationName) ∧
    ((∃ d, XRayBackend.create_span_enter true false "describe_instances" []
        = some (XRayHandle.sub d)) ↔ false = true) ∧
    XRayBackend.create_span_enter true false "describe_instances" [] = none :=
  ⟨by decide,
   (C4_xray_nesting false "describe_instances" [] (by decide)).2.1,
   (C4_xray_nesting false "describe_instances" [] (by decide)).2.2 rfl⟩

/-- Claim C5: one attribute-routing step of the X-Ray backend: the key
has every `.` and `-` replaced by `_`, and the value is recorded as an
annotation exactly when its stringified length is at most 50 characters,
else as metadata. -/
theorem C5_attribute_routing (k v : String) (d : XRaySegmentData) :
    (v.length ≤ 50 →
      putAttr d k v = { d with annotations := d.annotations ++ [(cleanKey k, v)] }) ∧
    (50 < v.length →
      putAttr d k v = { d with metadata := d.metadata ++ [(cleanKey k, v)] }) ∧
    (cleanKey k).data = k.data.map fun c => if c = '.' ∨ c = '-' then '_' else c := by
  refine ⟨fun h => ?_, fun h => ?_, ?_⟩
  · simp [putAttr, h]
  · simp [putAttr, Nat.not_le_of_lt h]
  · show (k.data.map _).map _ = _
    rw [List.map_map]
    apply List.map_congr_left
    intro c _
    simp only [Function.comp_apply]
    by_cases h1 : c = '.'
    · subst h1
      decide
    · by_cases h2 : c = '-'
      · subst h2
        decide
      · simp [h1, h2]

/-- A 50-character value: the annotation side of the boundary. -/
def value50 : String := ⟨List.replicate 50 'x'⟩

/-- A 51-character value: the metadata side of the boundary. -/
def value51 : String := ⟨List.replicate 51 'x'⟩

/-- Witness for C5 at the boundary: length 50 routes to annotation,
length 51 routes to metadata, with the key `a.b-c` normalized to
`a_b_c`. -/
theorem C5_attribute_routing_witness :
    value50.length ≤ 50 ∧
    putAttr ⟨[], []⟩ "a.b-c" value50 = ⟨[("a_b_c", value50)], []⟩ ∧
    50 < value51.length ∧
    putAttr ⟨[], []⟩ "a.b-c" value51 = ⟨[], [("a_b_c", value51)]⟩ := by
  refine ⟨by decide, ?_, by decide, ?_⟩
  · rw [(C5_attribute_routing "a.b-c" value50 ⟨[], []⟩).1 (by decide)]
    decide
  · rw [(C5_attribute_routing "a.b-c" value51 ⟨[], []⟩).2.1 (by decide)]
    decide

/-- Counterexample to claim C6 as stated: `OTLP` is a value other than
`disabled`, `otlp` and `xray`, yet the factory maps it to the OTLP
backend, not the No-op backend, because it lowercases the value before
comparing. -/
theorem C6_counterexample :
    "OTLP" ≠ "disabled" ∧ "OTLP" ≠ "otlp" ∧ "OTLP" ≠ "xray" ∧
    get_trace_backend (some "OTLP") = BackendKind.otlp ∧
    BackendKind.otlp ≠ BackendKind.noop :=
  ⟨by decide, by decide, by decide, by decide, by decide⟩

/-- Claim C6 (amended): the factory lowercases the configuration value
and then maps `otlp` to the OTLP backend, `xray` to the
segment-recorder backend, and every other lowercased value (including
`disabled` and the unset default) to the No-op backend. -/
theorem C6_factory_mapping (v : String)
    (h1 : pyLower v ≠ "otlp") (h2 : pyLower v ≠ "xray") :
    get_trace_backend (some "disabled") = BackendKind.noop ∧
    get_trace_backend (some "otlp") = BackendKind.otlp ∧
    get_trace_backend (some "xray") = BackendKind.xray ∧
    get_trace_backend none = BackendKind.noop ∧
    get_trace_backend (some v) = BackendKind.noop := by
  refine ⟨by decide, by decide, by decide, by decide, ?_⟩
  show (if pyLower v = "otlp" then BackendKind.otlp
    else if pyLower v = "xray" then BackendKind.xray else BackendKind.noop) = BackendKind.noop
  rw [if_neg h1, if_neg h2]

/-- Witness for C6 at a concrete unrecognized value. -/
theorem C6_factory_mapping_witness :
    pyLower "console" ≠ "otlp" ∧ pyLower "console" ≠ "xray" ∧
    get_trace_backend (some "console") = BackendKind.noop :=
  ⟨by decide, by decide,
   (C6_factory_mapping "console" (by decide) (by decide)).2.2.2.2⟩

/-- A concrete buffered span with OK status. -/
def okSpanExample : Span :=
  { traceId := 1, spanId := 2, name := "op", startTime := 3, endTime := some 7,
    attributes := [("k", "v")], status := .ok }

/-- Counterexample to claim C7 as stated: the export record does not
have exactly the seven listed fields — it also carries a `status`
field. -/
theorem C7_counterexample :
    Json.keys (OTLPBackend.spanRecord okSpanExample 0)
      = ["traceId", "spanId", "name", "kind", "startTimeUnixNano",
         "endTimeUnixNano", "attributes", "status"] ∧
    Json.keys (OTLPBackend.spanRecord okSpanExample 0)
      ≠ ["traceId", "spanId", "name", "kind", "startTimeUnixNano",
         "endTimeUnixNano", "attributes"] :=
  ⟨rfl, by decide⟩

/-- Claim C7 (amended): for every buffered span the export record has
exactly the listed fields plus a `status` field: a 32-character
lowercase-hex `traceId`, a 16-character lowercase-hex `spanId`, the span
name, the fixed kind `"SPAN_KIND_INTERNAL"`, start and end times as
decimal-string nanoseconds, and the attributes as `{key,
value:{stringValue}}` pairs; the whole result nests the span records
under the fixed resource block and a single scope block. -/
theorem C7_export_record_shape (span : Span) (buffer : List Span) (now : Nat)
    (h1 : span.traceId < 2 ^ 128) (h2 : span.spanId < 2 ^ 64) :
    Json.keys (OTLPBackend.spanRecord span now)
      = ["traceId", "spanId", "name", "kind", "startTimeUnixNano",
         "endTimeUnixNano", "attributes", "status"] ∧
    (∃ s, (OTLPBackend.spanRecord span now).field "traceId" = some (.str s) ∧
      s.length = 32 ∧ ∀ c ∈ s.data, isHexDigitChar c = true) ∧
    (∃ s, (OTLPBackend.spanRecord span now).field "spanId" = some (.str s) ∧
      s.length = 16 ∧ ∀ c ∈ s.data, isHexDigitChar c = true) ∧
    (OTLPBackend.spanRecord span now).field "name" = some (.str span.name) ∧
    (OTLPBackend.spanRecord span now).field "kind" = some (.str "SPAN_KIND_INTERNAL") ∧
    (OTLPBackend.spanRecord span now).field "startTimeUnixNano"
      = some (.str (Nat.repr span.startTime)) ∧
    (OTLPBackend.spanRecord span now).field "endTimeUnixNano"
      = some (.str (Nat.repr (endNano span now))) ∧
    (OTLPBackend.spanRecord span now).field "attributes"
      = some (.arr (span.attributes.map fun kv =>
          .obj [("key", .str kv.1), ("value", .obj [("stringValue", .str kv.2)])])) ∧
    (OTLPBackend.get_resource_spans buffer now).1
      = .obj [("resource", OTLPBackend.resourceJson),
              ("scopeSpans", .arr [.obj [("scope", OTLPBackend.scopeJson),
                ("spans", .arr (buffer.map fun s => OTLPBackend.spanRecord s now))]])] := by
  have h128 : span.traceId < 16 ^ 32 := by
    have : (16 : ℕ) ^ 32 = 2 ^ 128 := by norm_num
    omega
  have h64 : span.spanId < 16 ^ 16 := by
    have : (16 : ℕ) ^ 16 = 2 ^ 64 := by norm_num
    omega
  refine ⟨rfl, ⟨hexPad 32 span.traceId, rfl, hexPad_length h128, hexPad_chars 32 span.traceId⟩,
    ⟨hexPad 16 span.spanId, rfl, hexPad_length h64, hexPad_chars 16 span.spanId⟩,
    rfl, rfl, rfl, rfl, rfl, rfl⟩

/-- Witness for C7 at a concrete span. -/
theorem C7_export_record_shape_witness :
    okSpanExample.traceId < 2 ^ 128 ∧ okSpanExample.spanId < 2 ^ 64 ∧
    Json.keys (OTLPBackend.spanRecord okSpanExample 0)
      = ["traceId", "spanId", "name", "kind", "startTimeUnixNano",
         "endTimeUnixNano", "attributes", "status"] :=
  ⟨by norm_num [okSpanExample], by norm_num [okSpanExample],
   (C7_export_record_shape okSpanExample [] 0 (by norm_num [okSpanExample])
     (by norm_num [okSpanExample])).1⟩

/-- Claim C8: the No-op backend yields the inert `None` handle and
passes the body outcome through untouched (it adds no exception of its
own), and its `get_resource_spans` always returns the empty structure;
the `get_resource_spans` of the X-Ray backend returns that same empty
structure. -/
theorem C8_noop_and_xray_empty_export :
    (∀ (A : Type) (body : Option Span → Except PyExc A),
      NoOpBackend.create_span_scope body = body none) ∧
    NoOpBackend.get_resource_spans
      = Json.obj [("resource", .obj []), ("scopeSpans", .arr [])] ∧
    XRayBackend.get_resource_spans = NoOpBackend.get_resource_spans :=
  ⟨fun _ _ => rfl, rfl, rfl⟩

/-- Claim C9: `OTLPBackend.__init__` returns normally for every
environment; when the library imports, the console exporter is always
attached, and when the construction of the network exporter fails the backend
still comes up with only the console exporter; otherwise the network
exporter points at the configured endpoint, defaulting to
`http://localhost:4317`. -/
theorem C9_otlp_construction (avail fails : Bool) (ep : Option String) :
    ∃ st, OTLPBackend.init ⟨avail, fails, ep⟩ = .ok st ∧
      (avail = true → Exporter.console ∈ st.processors) ∧
      (avail = true → fails = true → st.processors = [Exporter.console]) ∧
      (avail = true → fails = false →
        st.processors = [Exporter.console,
          Exporter.otlpNetwork (ep.getD "http://localhost:4317")]) := by
  cases avail <;> cases fails <;>
    exact ⟨_, rfl, fun h => by simp_all [OTLPBackend.init],
      fun h hf => by simp_all [OTLPBackend.init],
      fun h hf => by simp_all [OTLPBackend.init]⟩

/-- Witness for C9: with the library available and a failing network
exporter, construction still returns a backend with only the console
exporter attached. -/
theorem C9_otlp_construction_witness :
    ∃ st, OTLPBackend.init ⟨true, true, none⟩ = Except.ok st ∧
      st.processors = [Exporter.console] := by
  obtain ⟨st, hok, _, honly, _⟩ := C9_otlp_construction true true none
  exact ⟨st, hok, honly rfl rfl⟩

/-- Claim C10: backend selection is case-insensitive — the factory
lowercases the value before comparison, so any value and its lowercase
form select the same backend; in particular `OTLP` selects the OTLP
backend and `XRay` the segment-recorder backend. -/
theorem C10_selection_case_insensitive (v : String) :
    get_trace_backend (some v) = get_trace_backend (some (pyLower v)) ∧
    get_trace_backend (some "OTLP") = BackendKind.otlp ∧
    get_trace_backend (some "XRay") = BackendKind.xray := by
  refine ⟨?_, by decide, by decide⟩
  show (if pyLower v = "otlp" then BackendKind.otlp
      else if pyLower v = "xray" then BackendKind.xray else BackendKind.noop)
    = (if pyLower (pyLower v) = "otlp" then BackendKind.otlp
      else if pyLower (pyLower v) = "xray" then BackendKind.xray else BackendKind.noop)
  rw [pyLower_idem]
